import Mathlib

/-!
Shallow embedding of the TWH Racing Part invoice settlement engine
(addons/twh_racing_part): models twh.invoice, twh.invoice.line, twh.payment,
twh.sales.commission, twh.due.reminder and the per-tier pricing lookup on
product.product.  Monetary values are rationals, dates are integers (day
numbers).  Each Odoo method used by the verified properties is translated
into an executable Lean function; fallible actions return Except String.
-/

namespace Twh

/-- Lifecycle states of model twh.payment (selection field state). -/
inductive PayState where
  | draft
  | confirmed
  | cancelled
deriving DecidableEq, Repr

/-- Lifecycle states of model twh.invoice (selection field state). -/
inductive InvState where
  | draft
  | confirmed
  | partialPaid
  | paid
  | overdue
  | cancelled
deriving DecidableEq, Repr

/-- Payment type of an invoice (selection field payment_type). -/
inductive PaymentType where
  | cash
  | tempo
deriving DecidableEq, Repr

/-- One record of model twh.invoice.line. -/
structure InvoiceLine where
  product_id : Nat
  quantity : ℚ
  price_unit : ℚ
deriving DecidableEq, Repr

/-- Computed field subtotal of twh.invoice.line: quantity x price_unit. -/
def InvoiceLine.subtotal (l : InvoiceLine) : ℚ := l.quantity * l.price_unit

/-- One record of model twh.payment, seen from its owning invoice. -/
structure Payment where
  payment_date : ℤ
  amount : ℚ
  state : PayState
deriving DecidableEq, Repr

/-- One record of model twh.sales.commission. -/
structure Commission where
  sales_person_id : Nat
  product_id : Nat
  quantity : ℚ
  cost_price : ℚ
  selling_price : ℚ
  margin : ℚ
  commission_amount : ℚ
  date : ℤ
deriving DecidableEq, Repr

/-- One record of model twh.invoice together with its one2many children
(payment_ids, invoice_line_ids, commission_ids) and its stored computed
monetary fields. -/
structure Invoice where
  sales_person_id : Nat
  date_invoice : ℤ
  payment_term_days : ℤ
  payment_type : PaymentType
  discount_percent : ℚ
  invoice_line_ids : List InvoiceLine
  payment_ids : List Payment
  commission_ids : List Commission
  state : InvState
  subtotal : ℚ
  discount_amount : ℚ
  total : ℚ
  paid_amount : ℚ
  remaining_amount : ℚ
  payment_progress : ℚ
deriving DecidableEq, Repr

/-- One record of model twh.product.price attached to a product: the pair
(tier_code, price).  tier_code is the related tier_id.code. -/
structure ProductPrice where
  tier_code : String
  price : ℚ
deriving DecidableEq, Repr

/-- ProductProduct.get_price_by_tier: first stored price whose tier_code
matches, or 0.0 when the product has no price for that tier.  The sql
constraint product_tier_unique guarantees at most one match. -/
def get_price_by_tier (twh_price_ids : List ProductPrice) (tier_code : String) : ℚ :=
  match twh_price_ids.find? (fun line => line.tier_code == tier_code) with
  | some line => line.price
  | none => 0

/-- Sum of the amounts of the confirmed payments of a payment list
(the filtered sum used by TwhInvoice._compute_payment_status). -/
def confirmedAmount (ps : List Payment) : ℚ :=
  ((ps.filter (fun p => decide (p.state = PayState.confirmed))).map Payment.amount).sum

namespace TwhInvoice

/-- TwhInvoice._compute_amounts: recompute subtotal, discount_amount and
total from the invoice lines and the discount percentage. -/
def compute_amounts (inv : Invoice) : Invoice :=
  let subtotal := (inv.invoice_line_ids.map InvoiceLine.subtotal).sum
  let discount_amount := subtotal * (inv.discount_percent / 100)
  let total := subtotal - discount_amount
  { inv with subtotal := subtotal, discount_amount := discount_amount, total := total }

/-- Status write-back performed at the end of TwhInvoice._compute_payment_status:
only invoices in state confirmed, partial or overdue are auto-transitioned,
to paid when the recomputed remaining amount is non-positive, else to
partial when something has been paid. -/
def derivedState (st : InvState) (paid_amount remaining_amount : ℚ) : InvState :=
  if st = InvState.confirmed ∨ st = InvState.partialPaid ∨ st = InvState.overdue then
    if remaining_amount ≤ 0 then InvState.paid
    else if paid_amount > 0 then InvState.partialPaid
    else st
  else st

/-- TwhInvoice._compute_payment_status: recompute paid_amount,
remaining_amount and payment_progress from the confirmed payments and the
stored total, then apply the automatic status transition. -/
def compute_payment_status (inv : Invoice) : Invoice :=
  let paid_amount := confirmedAmount inv.payment_ids
  let remaining_amount := inv.total - paid_amount
  let payment_progress := if inv.total > 0 then paid_amount / inv.total * 100 else 0
  { inv with
      paid_amount := paid_amount
      remaining_amount := remaining_amount
      payment_progress := payment_progress
      state := derivedState inv.state paid_amount remaining_amount }

/-- Full recomputation of the stored computed fields, in dependency order:
_compute_amounts feeds total into _compute_payment_status.  This is what
the ORM runs after any mutation of lines, discount or payments. -/
def recompute (inv : Invoice) : Invoice :=
  compute_payment_status (compute_amounts inv)

/-- TwhInvoice._compute_due_date: cash invoices have no due date; tempo
invoices with a non-zero term are due date_invoice + payment_term_days
(a zero term is falsy in the source and also yields no due date). -/
def compute_due_date (inv : Invoice) : Option ℤ :=
  match inv.payment_type with
  | PaymentType.cash => none
  | PaymentType.tempo =>
      if inv.payment_term_days ≠ 0 then some (inv.date_invoice + inv.payment_term_days)
      else none

end TwhInvoice

namespace TwhPayment

/-- TwhPayment.create followed by the auto-confirmation it performs.
Mirrors the source flow: the amount constraint fires at create, the record
is created in state draft attached to the invoice (which re-runs
_compute_payment_status on its stored fields), then action_confirm checks
the amount against the freshly recomputed remaining balance, flips the
payment to confirmed and recomputes the invoice payment status again.
An error models ValidationError, which rolls the whole create back. -/
def create (inv : Invoice) (payment_date : ℤ) (amount : ℚ) : Except String Invoice :=
  if amount ≤ 0 then Except.error "Jumlah pembayaran harus lebih dari 0!"
  else
    let p : Payment := { payment_date := payment_date, amount := amount, state := PayState.draft }
    let inv1 := TwhInvoice.compute_payment_status
      { inv with payment_ids := inv.payment_ids ++ [p] }
    if amount ≤ 0 then Except.error "Jumlah pembayaran harus lebih dari 0!"
    else if amount > inv1.remaining_amount then
      Except.error "Jumlah pembayaran tidak boleh melebihi sisa tagihan!"
    else
      Except.ok (TwhInvoice.compute_payment_status
        { inv1 with payment_ids := inv.payment_ids ++ [{ p with state := PayState.confirmed }] })

/-- Invoice state resulting from TwhPayment.create under transactional
semantics: on ValidationError the transaction is rolled back and the
invoice keeps its previous contents. -/
def create_apply (inv : Invoice) (payment_date : ℤ) (amount : ℚ) : Invoice :=
  match create inv payment_date amount with
  | Except.ok inv2 => inv2
  | Except.error _ => inv

/-- Helper for TwhPayment.action_cancel: flip the payment at position i of
the list of payments of the invoice to state cancelled. -/
def cancelAt : List Payment → Nat → List Payment
  | [], _ => []
  | p :: ps, 0 => { p with state := PayState.cancelled } :: ps
  | p :: ps, Nat.succ n => p :: cancelAt ps n

/-- TwhPayment.action_cancel on the payment at position i of the invoice:
write state cancelled on the payment, then re-run the invoice method
_compute_payment_status. -/
def action_cancel (inv : Invoice) (i : Nat) : Invoice :=
  TwhInvoice.compute_payment_status
    { inv with payment_ids := cancelAt inv.payment_ids i }

end TwhPayment

namespace TwhInvoice

/-- TwhInvoice._create_commission: discard all existing commission records
of the invoice, then for each line look up the bayu (cost) tier price of
the product, compute margin and commission, and create one record exactly
when the commission amount is positive.  priceOf gives the stored
twh.product.price rows of each product. -/
def create_commission (priceOf : Nat → List ProductPrice) (inv : Invoice) : Invoice :=
  { inv with
      commission_ids := inv.invoice_line_ids.filterMap (fun line =>
        let cost_price := get_price_by_tier (priceOf line.product_id) "bayu"
        let selling_price := line.price_unit
        let margin := selling_price - cost_price
        let commission_amount := margin * line.quantity
        if commission_amount > 0 then
          some { sales_person_id := inv.sales_person_id
                 product_id := line.product_id
                 quantity := line.quantity
                 cost_price := cost_price
                 selling_price := selling_price
                 margin := margin
                 commission_amount := commission_amount
                 date := inv.date_invoice }
        else none) }

/-- TwhInvoice.action_confirm: refuse an invoice without lines (UserError),
otherwise write state confirmed, regenerate the sales commissions and, for
a cash invoice, create (and thereby auto-confirm) one payment of the full
stored total dated on the invoice date. -/
def action_confirm (priceOf : Nat → List ProductPrice) (inv : Invoice) : Except String Invoice :=
  if inv.invoice_line_ids.isEmpty then
    Except.error "Tidak bisa konfirmasi invoice tanpa produk!"
  else
    let inv1 := { inv with state := InvState.confirmed }
    let inv2 := create_commission priceOf inv1
    match inv2.payment_type with
    | PaymentType.cash => TwhPayment.create inv2 inv2.date_invoice inv2.total
    | PaymentType.tempo => Except.ok inv2

/-- TwhInvoice.action_mark_paid: unconditionally write state paid. -/
def action_mark_paid (inv : Invoice) : Invoice :=
  { inv with state := InvState.paid }

/-- TwhInvoice.action_set_to_draft: unconditionally write state draft. -/
def action_set_to_draft (inv : Invoice) : Invoice :=
  { inv with state := InvState.draft }

end TwhInvoice

/-- One record of model twh.due.reminder, restricted to the fields the
creation sweep writes. -/
structure Reminder where
  invoice_id : Nat
  reminder_date : ℤ
  reminder_type : String
  days_before_due : ℤ
deriving DecidableEq, Repr

namespace TwhDueReminder

/-- Search performed before each reminder create: is there already a
reminder for this invoice with this type on this date. -/
def reminderExists (db : List Reminder) (invId : Nat) (rtype : String) (rdate : ℤ) : Bool :=
  db.any (fun r => r.invoice_id == invId && r.reminder_type == rtype && r.reminder_date == rdate)

/-- TwhDueReminder._create_overdue_reminder: create an overdue reminder for
today unless one exists, and in that case also force the invoice state to
overdue.  Returns the reminder table and the invoice state to write. -/
def create_overdue_reminder (db : List Reminder) (inv : Invoice) (invId : Nat)
    (today days_until_due : ℤ) : List Reminder × InvState :=
  if reminderExists db invId "overdue" today then (db, inv.state)
  else
    (db ++ [{ invoice_id := invId, reminder_date := today, reminder_type := "overdue",
              days_before_due := days_until_due }],
     if inv.state ≠ InvState.overdue then InvState.overdue else inv.state)

/-- TwhDueReminder._create_daily_reminder: create a daily reminder for
today unless one exists. -/
def create_daily_reminder (db : List Reminder) (invId : Nat)
    (today days_until_due : ℤ) : List Reminder :=
  if reminderExists db invId "daily" today then db
  else
    db ++ [{ invoice_id := invId, reminder_date := today, reminder_type := "daily",
             days_before_due := days_until_due }]

/-- Milestone type mapping of _create_milestone_reminder. -/
def milestoneType (days_until_due : ℤ) : Option String :=
  if days_until_due = 7 then some "7_days"
  else if days_until_due = 3 then some "3_days"
  else if days_until_due = 0 then some "due_date"
  else none

/-- TwhDueReminder._create_milestone_reminder: create the 7_days, 3_days or
due_date reminder for today unless one exists. -/
def create_milestone_reminder (db : List Reminder) (invId : Nat)
    (today days_until_due : ℤ) : List Reminder :=
  match milestoneType days_until_due with
  | none => db
  | some rtype =>
      if reminderExists db invId rtype today then db
      else
        db ++ [{ invoice_id := invId, reminder_date := today, reminder_type := rtype,
                 days_before_due := days_until_due }]

/-- TwhDueReminder._process_invoice_reminders for one invoice: from the due
date compute days until due, then create the overdue reminder (forcing the
invoice overdue) when past due, else within 14 days the daily reminder and,
at exactly 7, 3 or 0 days, the matching milestone reminder. -/
def process_invoice_reminders (db : List Reminder) (inv : Invoice) (invId : Nat)
    (today : ℤ) : List Reminder × Invoice :=
  match TwhInvoice.compute_due_date inv with
  | none => (db, inv)
  | some due_date =>
      let days_until_due := due_date - today
      if days_until_due < 0 then
        let r := create_overdue_reminder db inv invId today days_until_due
        (r.1, { inv with state := r.2 })
      else if days_until_due ≤ 14 then
        let db2 := create_daily_reminder db invId today days_until_due
        if days_until_due = 7 ∨ days_until_due = 3 ∨ days_until_due = 0 then
          (create_milestone_reminder db2 invId today days_until_due, inv)
        else (db2, inv)
      else (db, inv)

/-- Number of reminders stored for one (invoice, type, date) key. -/
def countKey (db : List Reminder) (invId : Nat) (rtype : String) (rdate : ℤ) : Nat :=
  (db.filter (fun r => r.invoice_id == invId && r.reminder_type == rtype && r.reminder_date == rdate)).length

end TwhDueReminder

/-- Sample tempo invoice of the spec scenario: total 1000000, confirmed,
stored computed fields consistent, no payment yet. -/
def sampleTempo : Invoice :=
  { sales_person_id := 1
    date_invoice := 0
    payment_term_days := 60
    payment_type := PaymentType.tempo
    discount_percent := 0
    invoice_line_ids := [{ product_id := 1, quantity := 2, price_unit := 500000 }]
    payment_ids := []
    commission_ids := []
    state := InvState.confirmed
    subtotal := 1000000
    discount_amount := 0
    total := 1000000
    paid_amount := 0
    remaining_amount := 1000000
    payment_progress := 0 }

example :
    TwhInvoice.derivedState InvState.confirmed 5 0 = InvState.paid := by decide

example :
    TwhInvoice.derivedState InvState.paid 0 7 = InvState.paid := by decide

example :
    (TwhPayment.create_apply sampleTempo 10 400000).state = InvState.partialPaid ∧
    (TwhPayment.create_apply sampleTempo 10 400000).remaining_amount = 600000 ∧
    (TwhPayment.create_apply sampleTempo 10 400000).payment_progress = 40 := by
  norm_num +decide [TwhPayment.create_apply, TwhPayment.create, TwhInvoice.compute_payment_status,
    TwhInvoice.derivedState, confirmedAmount, sampleTempo, List.filter_cons]

example :
    TwhPayment.create sampleTempo 10 1200000
      = Except.error "Jumlah pembayaran tidak boleh melebihi sisa tagihan!" := by
  norm_num +decide [TwhPayment.create, TwhInvoice.compute_payment_status,
    TwhInvoice.derivedState, confirmedAmount, sampleTempo, List.filter_cons]

/-! Helper lemmas shared by the claim theorems. -/

theorem confirmedAmount_append (ps qs : List Payment) :
    confirmedAmount (ps ++ qs) = confirmedAmount ps + confirmedAmount qs := by
  simp [confirmedAmount, List.filter_append]

theorem confirmedAmount_draft_singleton (d : ℤ) (a : ℚ) :
    confirmedAmount [{ payment_date := d, amount := a, state := PayState.draft }] = 0 := by
  simp [confirmedAmount, List.filter_cons]

theorem confirmedAmount_confirmed_singleton (d : ℤ) (a : ℚ) :
    confirmedAmount [{ payment_date := d, amount := a, state := PayState.confirmed }] = a := by
  simp [confirmedAmount, List.filter_cons]

theorem compute_payment_status_remaining (inv : Invoice) :
    (TwhInvoice.compute_payment_status inv).remaining_amount
      = inv.total - confirmedAmount inv.payment_ids := rfl

theorem compute_payment_status_paid (inv : Invoice) :
    (TwhInvoice.compute_payment_status inv).paid_amount
      = confirmedAmount inv.payment_ids := rfl

theorem compute_payment_status_state (inv : Invoice) :
    (TwhInvoice.compute_payment_status inv).state
      = TwhInvoice.derivedState inv.state (confirmedAmount inv.payment_ids)
          (inv.total - confirmedAmount inv.payment_ids) := rfl

theorem create_error_of_gt_remaining (inv : Invoice) (d : ℤ) (a : ℚ)
    (h : a > (TwhInvoice.compute_payment_status inv).remaining_amount) :
    TwhPayment.create inv d a
      = (if a ≤ 0 then Except.error "Jumlah pembayaran harus lebih dari 0!"
         else Except.error "Jumlah pembayaran tidak boleh melebihi sisa tagihan!") := by
  by_cases ha : a ≤ 0
  · simp [TwhPayment.create, ha]
  · have hrem :
        (TwhInvoice.compute_payment_status
          { inv with payment_ids := inv.payment_ids
              ++ [{ payment_date := d, amount := a, state := PayState.draft }] }).remaining_amount
          = (TwhInvoice.compute_payment_status inv).remaining_amount := by
      simp [compute_payment_status_remaining, confirmedAmount_append,
        confirmedAmount_draft_singleton]
    simp only [TwhPayment.create, if_neg ha]
    rw [hrem, if_pos h]

/-- C1: for every payment whose amount exceeds the owning invoice current
remaining balance, the create / auto-confirm flow of twh.payment raises
ValidationError, and (by rollback) the invoice keeps its paid amount,
remaining amount and status: no confirmed payment is added. -/
theorem payment_exceeding_remaining_rejected (inv : Invoice) (d : ℤ) (a : ℚ)
    (h : a > (TwhInvoice.compute_payment_status inv).remaining_amount) :
    (∃ e, TwhPayment.create inv d a = Except.error e)
    ∧ TwhPayment.create_apply inv d a = inv
    ∧ (TwhPayment.create_apply inv d a).paid_amount = inv.paid_amount
    ∧ (TwhPayment.create_apply inv d a).remaining_amount = inv.remaining_amount
    ∧ (TwhPayment.create_apply inv d a).state = inv.state
    ∧ (TwhPayment.create_apply inv d a).payment_ids = inv.payment_ids := by
  have hcr := create_error_of_gt_remaining inv d a h
  have happ : TwhPayment.create_apply inv d a = inv := by
    unfold TwhPayment.create_apply
    rw [hcr]
    by_cases ha : a ≤ 0 <;> simp [ha]
  refine ⟨?_, happ, by rw [happ], by rw [happ], by rw [happ], by rw [happ]⟩
  rw [hcr]
  by_cases ha : a ≤ 0
  · exact ⟨_, by rw [if_pos ha]⟩
  · exact ⟨_, by rw [if_neg ha]⟩

/-- C1 witness: on an invoice with total 1 and no payment, a payment of 2
exceeds the remaining balance 1 and is rejected, leaving the invoice
unchanged. -/
def wInvC1 : Invoice :=
  { sampleTempo with
      invoice_line_ids := [{ product_id := 1, quantity := 1, price_unit := 1 }]
      subtotal := 1, total := 1, remaining_amount := 1 }

theorem payment_exceeding_remaining_rejected_witness :
    (∃ e, TwhPayment.create wInvC1 5 2 = Except.error e)
    ∧ TwhPayment.create_apply wInvC1 5 2 = wInvC1 := by
  have h : (2:ℚ) > (TwhInvoice.compute_payment_status wInvC1).remaining_amount := by
    rw [compute_payment_status_remaining]
    show (2:ℚ) > (1:ℚ) - confirmedAmount []
    rw [show confirmedAmount [] = 0 from rfl, sub_zero]
    exact one_lt_two
  have := payment_exceeding_remaining_rejected wInvC1 5 2 h
  exact ⟨this.1, this.2.1⟩

/-- C2: after a full recomputation (run by the ORM on every change to
lines, discount or payments) the derived monetary fields of an invoice
satisfy the spec equations: subtotal is the sum of quantity x unit price
over the lines, discount_amount is subtotal x discount_percent / 100,
total is subtotal - discount_amount, paid_amount is the sum of the amounts
of the confirmed payments, remaining_amount is total - paid_amount, and
payment_progress is paid / total x 100 when total is positive, else 0. -/
theorem recompute_derived_field_equations (inv : Invoice) :
    (TwhInvoice.recompute inv).subtotal
        = ((inv.invoice_line_ids.map (fun l => l.quantity * l.price_unit)).sum)
    ∧ (TwhInvoice.recompute inv).discount_amount
        = (TwhInvoice.recompute inv).subtotal * (TwhInvoice.recompute inv).discount_percent / 100
    ∧ (TwhInvoice.recompute inv).total
        = (TwhInvoice.recompute inv).subtotal - (TwhInvoice.recompute inv).discount_amount
    ∧ (TwhInvoice.recompute inv).paid_amount
        = (((TwhInvoice.recompute inv).payment_ids.filter
              (fun p => decide (p.state = PayState.confirmed))).map Payment.amount).sum
    ∧ (TwhInvoice.recompute inv).remaining_amount
        = (TwhInvoice.recompute inv).total - (TwhInvoice.recompute inv).paid_amount
    ∧ (TwhInvoice.recompute inv).payment_progress
        = (if (TwhInvoice.recompute inv).total > 0 then
             (TwhInvoice.recompute inv).paid_amount / (TwhInvoice.recompute inv).total * 100
           else 0) := by
  refine ⟨rfl, ?_, rfl, rfl, rfl, rfl⟩
  show ((inv.invoice_line_ids.map InvoiceLine.subtotal).sum) * (inv.discount_percent / 100)
    = ((inv.invoice_line_ids.map InvoiceLine.subtotal).sum) * inv.discount_percent / 100
  rw [mul_div_assoc]

/-- C3: within _compute_payment_status, an invoice in state confirmed,
partial or overdue is moved to paid when the recomputed remaining amount
is non-positive, and to partial when something is paid but remaining is
positive; in any other state (draft, paid, cancelled) the recomputation
never touches the state — in particular cancelling a payment of an
invoice already paid leaves the state paid. -/
theorem payment_status_state_transitions (inv : Invoice) (i : Nat) :
    ((inv.state = InvState.confirmed ∨ inv.state = InvState.partialPaid
        ∨ inv.state = InvState.overdue) →
      (((TwhInvoice.compute_payment_status inv).remaining_amount ≤ 0 →
          (TwhInvoice.compute_payment_status inv).state = InvState.paid)
       ∧ ((TwhInvoice.compute_payment_status inv).paid_amount > 0 ∧
            (TwhInvoice.compute_payment_status inv).remaining_amount > 0 →
          (TwhInvoice.compute_payment_status inv).state = InvState.partialPaid)))
    ∧ ((inv.state = InvState.draft ∨ inv.state = InvState.paid
          ∨ inv.state = InvState.cancelled) →
        (TwhInvoice.compute_payment_status inv).state = inv.state)
    ∧ (inv.state = InvState.paid →
        (TwhPayment.action_cancel inv i).state = InvState.paid) := by
  refine ⟨fun hmem => ⟨fun hrem => ?_, fun hpar => ?_⟩, fun hother => ?_, fun hpaid => ?_⟩
  · rw [compute_payment_status_state, TwhInvoice.derivedState, if_pos hmem, if_pos]
    exact hrem
  · rw [compute_payment_status_remaining, compute_payment_status_paid] at hpar
    rw [compute_payment_status_state, TwhInvoice.derivedState, if_pos hmem,
      if_neg (not_le.mpr hpar.2), if_pos hpar.1]
  · rw [compute_payment_status_state, TwhInvoice.derivedState, if_neg]
    rcases hother with h | h | h <;> rw [h] <;> simp
  · show (TwhInvoice.compute_payment_status
      { inv with payment_ids := TwhPayment.cancelAt inv.payment_ids i }).state = InvState.paid
    rw [compute_payment_status_state, hpaid, TwhInvoice.derivedState, if_neg]
    simp

/-- C3 witness: a confirmed invoice with total 0 and no payments is moved
to paid by the recomputation, and cancelling the first payment of a paid
invoice leaves it paid. -/
def wInvC3 : Invoice :=
  { sampleTempo with
      invoice_line_ids := [], subtotal := 0, total := 0, remaining_amount := 0 }

def wInvC3paid : Invoice :=
  { sampleTempo with
      state := InvState.paid
      payment_ids := [{ payment_date := 3, amount := 1000000, state := PayState.confirmed }]
      paid_amount := 1000000, remaining_amount := 0, payment_progress := 100 }

theorem payment_status_state_transitions_witness :
    (TwhInvoice.compute_payment_status wInvC3).state = InvState.paid
    ∧ (TwhPayment.action_cancel wInvC3paid 0).state = InvState.paid := by
  constructor
  · refine ((payment_status_state_transitions wInvC3 0).1 (Or.inl rfl)).1 ?_
    rw [compute_payment_status_remaining]
    show (0:ℚ) - confirmedAmount [] ≤ 0
    rw [show confirmedAmount [] = 0 from rfl, sub_zero]
  · exact (payment_status_state_transitions wInvC3paid 0).2.2 rfl

theorem filterMap_guard {α β : Type} (p : α → Prop) [DecidablePred p] (f : α → β)
    (l : List α) :
    l.filterMap (fun a => if p a then some (f a) else none)
      = (l.filter (fun a => decide (p a))).map f := by
  induction l with
  | nil => rfl
  | cons a t ih =>
    by_cases h : p a
    · simp [List.filterMap_cons, List.filter_cons, h, ih]
    · simp [List.filterMap_cons, List.filter_cons, h, ih]

/-- C4: _create_commission emits exactly one commission record per invoice
line whose margin times quantity is positive, with cost price looked up in
the pricing table at tier code bayu, margin = unit price - cost price and
commission_amount = margin x quantity; lines with zero or negative margin
yield no record, and a product without a stored bayu price has cost 0. -/
theorem create_commission_per_line (priceOf : Nat → List ProductPrice) (inv : Invoice) :
    ((TwhInvoice.create_commission priceOf inv).commission_ids
      = ((inv.invoice_line_ids.filter (fun l =>
            decide ((l.price_unit - get_price_by_tier (priceOf l.product_id) "bayu")
              * l.quantity > 0))).map
          (fun l =>
            { sales_person_id := inv.sales_person_id
              product_id := l.product_id
              quantity := l.quantity
              cost_price := get_price_by_tier (priceOf l.product_id) "bayu"
              selling_price := l.price_unit
              margin := l.price_unit - get_price_by_tier (priceOf l.product_id) "bayu"
              commission_amount :=
                (l.price_unit - get_price_by_tier (priceOf l.product_id) "bayu") * l.quantity
              date := inv.date_invoice })))
    ∧ (∀ ps : List ProductPrice, (∀ e ∈ ps, e.tier_code ≠ "bayu") →
        get_price_by_tier ps "bayu" = 0) := by
  constructor
  · have h1 : (TwhInvoice.create_commission priceOf inv).commission_ids
        = inv.invoice_line_ids.filterMap (fun l =>
            if (l.price_unit - get_price_by_tier (priceOf l.product_id) "bayu")
                * l.quantity > 0 then
              some ({ sales_person_id := inv.sales_person_id
                      product_id := l.product_id
                      quantity := l.quantity
                      cost_price := get_price_by_tier (priceOf l.product_id) "bayu"
                      selling_price := l.price_unit
                      margin := l.price_unit - get_price_by_tier (priceOf l.product_id) "bayu"
                      commission_amount :=
                        (l.price_unit - get_price_by_tier (priceOf l.product_id) "bayu")
                          * l.quantity
                      date := inv.date_invoice } : Commission)
            else none) := rfl
    rw [h1, filterMap_guard]
  · intro ps hps
    unfold get_price_by_tier
    rw [List.find?_eq_none.mpr]
    intro x hx
    simp only [beq_iff_eq]
    exact hps x hx

/-- C4 witness: a product with no stored prices has bayu cost 0. -/
theorem create_commission_per_line_witness :
    get_price_by_tier [] "bayu" = 0 :=
  (create_commission_per_line (fun _ => []) sampleTempo).2 [] (by simp)

/-- C5: commission generation is idempotent: whatever commission records an
invoice already carries, _create_commission fully replaces them, and
running it twice gives the same invoice as running it once, so
re-confirmation never leaves duplicates. -/
theorem create_commission_idempotent (priceOf : Nat → List ProductPrice) (inv : Invoice) :
    (∀ cs : List Commission,
       TwhInvoice.create_commission priceOf { inv with commission_ids := cs }
         = TwhInvoice.create_commission priceOf inv)
    ∧ TwhInvoice.create_commission priceOf (TwhInvoice.create_commission priceOf inv)
        = TwhInvoice.create_commission priceOf inv :=
  ⟨fun _ => rfl, rfl⟩

theorem cps_twice_state (inv : Invoice) (ps1 ps2 : List Payment) :
    (TwhInvoice.compute_payment_status
      { (TwhInvoice.compute_payment_status { inv with payment_ids := ps1 }) with
        payment_ids := ps2 }).state
      = TwhInvoice.derivedState
          (TwhInvoice.derivedState inv.state (confirmedAmount ps1)
            (inv.total - confirmedAmount ps1))
          (confirmedAmount ps2) (inv.total - confirmedAmount ps2) := rfl

theorem cps_twice_remaining (inv : Invoice) (ps1 ps2 : List Payment) :
    (TwhInvoice.compute_payment_status
      { (TwhInvoice.compute_payment_status { inv with payment_ids := ps1 }) with
        payment_ids := ps2 }).remaining_amount
      = inv.total - confirmedAmount ps2 := rfl

theorem cps_twice_paid (inv : Invoice) (ps1 ps2 : List Payment) :
    (TwhInvoice.compute_payment_status
      { (TwhInvoice.compute_payment_status { inv with payment_ids := ps1 }) with
        payment_ids := ps2 }).paid_amount
      = confirmedAmount ps2 := rfl

theorem cps_sub_remaining (inv : Invoice) (ps : List Payment) :
    (TwhInvoice.compute_payment_status { inv with payment_ids := ps }).remaining_amount
      = inv.total - confirmedAmount ps := rfl

theorem create_full_payment_ok (inv : Invoice) (d : ℤ)
    (hst : inv.state = InvState.confirmed)
    (htot : inv.total > 0) (hpaid0 : confirmedAmount inv.payment_ids = 0) :
    ∃ inv2, TwhPayment.create inv d inv.total = Except.ok inv2
      ∧ inv2.state = InvState.paid
      ∧ inv2.remaining_amount = 0
      ∧ inv2.paid_amount = inv.total
      ∧ inv2.payment_ids = inv.payment_ids
          ++ [{ payment_date := d, amount := inv.total, state := PayState.confirmed }]
      ∧ inv2.commission_ids = inv.commission_ids := by
  have hne : ¬ inv.total ≤ 0 := not_le.mpr htot
  have hrem1 : (TwhInvoice.compute_payment_status
      { inv with payment_ids := inv.payment_ids
          ++ [{ payment_date := d, amount := inv.total, state := PayState.draft }] }).remaining_amount
      = inv.total := by
    rw [cps_sub_remaining, confirmedAmount_append, confirmedAmount_draft_singleton, hpaid0]
    ring
  have hcreate : TwhPayment.create inv d inv.total
      = Except.ok (TwhInvoice.compute_payment_status
          { (TwhInvoice.compute_payment_status
              { inv with payment_ids := inv.payment_ids
                  ++ [{ payment_date := d, amount := inv.total, state := PayState.draft }] }) with
            payment_ids := inv.payment_ids
              ++ [{ payment_date := d, amount := inv.total, state := PayState.confirmed }] }) := by
    simp only [TwhPayment.create, if_neg hne]
    rw [hrem1, if_neg (lt_irrefl inv.total)]
  have hpaidC : confirmedAmount (inv.payment_ids
      ++ [{ payment_date := d, amount := inv.total, state := PayState.confirmed }]) = inv.total := by
    rw [confirmedAmount_append, confirmedAmount_confirmed_singleton, hpaid0, zero_add]
  have hinner : TwhInvoice.derivedState InvState.confirmed 0 inv.total = InvState.confirmed := by
    unfold TwhInvoice.derivedState
    rw [if_pos (Or.inl rfl), if_neg hne, if_neg (lt_irrefl 0)]
  refine ⟨_, hcreate, ?_, ?_, ?_, rfl, rfl⟩
  · rw [cps_twice_state, hpaidC, confirmedAmount_append, confirmedAmount_draft_singleton,
      hpaid0, add_zero, sub_zero, sub_self, hst, hinner]
    unfold TwhInvoice.derivedState
    rw [if_pos (Or.inl rfl), if_pos le_rfl]
  · rw [cps_twice_remaining, hpaidC, sub_self]
  · rw [cps_twice_paid, hpaidC]

theorem action_confirm_eval (priceOf : Nat → List ProductPrice) (inv : Invoice)
    (hne : inv.invoice_line_ids ≠ []) :
    TwhInvoice.action_confirm priceOf inv
      = match inv.payment_type with
        | PaymentType.cash =>
            TwhPayment.create
              (TwhInvoice.create_commission priceOf { inv with state := InvState.confirmed })
              inv.date_invoice inv.total
        | PaymentType.tempo =>
            Except.ok (TwhInvoice.create_commission priceOf
              { inv with state := InvState.confirmed }) := by
  have h : inv.invoice_line_ids.isEmpty = false := by
    cases hl : inv.invoice_line_ids with
    | nil => exact absurd hl hne
    | cons a t => rfl
  simp only [TwhInvoice.action_confirm, h, Bool.false_eq_true, if_false]
  rfl

theorem action_confirm_eval_cash (priceOf : Nat → List ProductPrice) (inv : Invoice)
    (hne : inv.invoice_line_ids ≠ []) (hcash : inv.payment_type = PaymentType.cash) :
    TwhInvoice.action_confirm priceOf inv
      = TwhPayment.create
          (TwhInvoice.create_commission priceOf { inv with state := InvState.confirmed })
          inv.date_invoice inv.total := by
  rw [action_confirm_eval priceOf inv hne, hcash]

theorem action_confirm_eval_tempo (priceOf : Nat → List ProductPrice) (inv : Invoice)
    (hne : inv.invoice_line_ids ≠ []) (htempo : inv.payment_type = PaymentType.tempo) :
    TwhInvoice.action_confirm priceOf inv
      = Except.ok (TwhInvoice.create_commission priceOf
          { inv with state := InvState.confirmed }) := by
  rw [action_confirm_eval priceOf inv hne, htempo]

/-- C6 (amended): for a draft invoice, action_confirm errors when there is
no line; with at least one line a tempo invoice is confirmed and its
commissions regenerated; a cash invoice whose stored total is positive and
which carries no confirmed payment additionally gets exactly one
auto-confirmed payment of the full total dated on the invoice date, ending
with remaining_amount 0 and state paid.  (A cash invoice with non-positive
total instead raises ValidationError on the auto-created payment.) -/
theorem action_confirm_spec (priceOf : Nat → List ProductPrice) (inv : Invoice)
    (_hdraft : inv.state = InvState.draft) :
    (inv.invoice_line_ids = [] →
      TwhInvoice.action_confirm priceOf inv
        = Except.error "Tidak bisa konfirmasi invoice tanpa produk!")
    ∧ (inv.invoice_line_ids ≠ [] → inv.payment_type = PaymentType.tempo →
        ∃ inv2, TwhInvoice.action_confirm priceOf inv = Except.ok inv2
          ∧ inv2.state = InvState.confirmed
          ∧ inv2.commission_ids = (TwhInvoice.create_commission priceOf inv).commission_ids
          ∧ inv2.payment_ids = inv.payment_ids)
    ∧ (inv.invoice_line_ids ≠ [] → inv.payment_type = PaymentType.cash →
        inv.total > 0 → confirmedAmount inv.payment_ids = 0 →
        ∃ inv2, TwhInvoice.action_confirm priceOf inv = Except.ok inv2
          ∧ inv2.state = InvState.paid
          ∧ inv2.remaining_amount = 0
          ∧ inv2.paid_amount = inv.total
          ∧ inv2.payment_ids = inv.payment_ids
              ++ [{ payment_date := inv.date_invoice, amount := inv.total,
                    state := PayState.confirmed }]
          ∧ inv2.commission_ids
              = (TwhInvoice.create_commission priceOf inv).commission_ids) := by
  refine ⟨fun hnil => ?_, fun hne htempo => ?_, fun hne hcash htot hpaid0 => ?_⟩
  · unfold TwhInvoice.action_confirm
    rw [hnil]
    rfl
  · rw [action_confirm_eval_tempo priceOf inv hne htempo]
    exact ⟨_, rfl, rfl, rfl, rfl⟩
  · rw [action_confirm_eval_cash priceOf inv hne hcash]
    obtain ⟨inv3, hcr, hst3, hrem3, hpaid3, hpids3, hcids3⟩ :=
      create_full_payment_ok
        (TwhInvoice.create_commission priceOf { inv with state := InvState.confirmed })
        inv.date_invoice rfl htot hpaid0
    exact ⟨inv3, hcr, hst3, hrem3, hpaid3, hpids3, hcids3⟩

/-- C6 counterexample input: a draft cash invoice holding one line priced
at zero, with consistently stored zero totals. -/
def cexC6 : Invoice :=
  { sampleTempo with
      payment_type := PaymentType.cash
      state := InvState.draft
      invoice_line_ids := [{ product_id := 1, quantity := 1, price_unit := 0 }]
      subtotal := 0, total := 0, remaining_amount := 0 }

/-- C6 counterexample: this draft cash invoice has a line, yet
action_confirm raises ValidationError on the zero-amount auto payment
instead of completing with state paid as the claim asserts. -/
theorem action_confirm_cash_zero_total_cex :
    cexC6.state = InvState.draft
    ∧ cexC6.payment_type = PaymentType.cash
    ∧ cexC6.invoice_line_ids ≠ []
    ∧ TwhInvoice.action_confirm (fun _ => []) cexC6
        = Except.error "Jumlah pembayaran harus lebih dari 0!" := by
  refine ⟨rfl, rfl, List.cons_ne_nil _ _, ?_⟩
  rw [action_confirm_eval_cash (fun _ => []) cexC6 (List.cons_ne_nil _ _) rfl]
  unfold TwhPayment.create
  rw [if_pos]
  exact le_rfl

/-- C6 witness input: a draft cash invoice with one line of price 100 and
consistent stored totals, no payment yet. -/
def wInvC6 : Invoice :=
  { sampleTempo with
      payment_type := PaymentType.cash
      state := InvState.draft
      invoice_line_ids := [{ product_id := 1, quantity := 1, price_unit := 1 }]
      subtotal := 1, total := 1, remaining_amount := 1 }

theorem action_confirm_spec_witness :
    ∃ inv2, TwhInvoice.action_confirm (fun _ => []) wInvC6 = Except.ok inv2
      ∧ inv2.state = InvState.paid
      ∧ inv2.remaining_amount = 0
      ∧ inv2.paid_amount = wInvC6.total := by
  obtain ⟨inv2, h1, h2, h3, h4, _, _⟩ :=
    (action_confirm_spec (fun _ => []) wInvC6 rfl).2.2 (List.cons_ne_nil _ _) rfl
      (show (0:ℚ) < 1 from one_pos) rfl
  exact ⟨inv2, h1, h2, h3, h4⟩

/-- C10: a cash invoice with at least one line but non-positive stored
total can never complete confirmation: the auto-created full payment
carries a non-positive amount and is rejected with ValidationError. -/
theorem cash_nonpositive_total_never_confirms (priceOf : Nat → List ProductPrice)
    (inv : Invoice) (hne : inv.invoice_line_ids ≠ [])
    (hcash : inv.payment_type = PaymentType.cash) (htot : inv.total ≤ 0) :
    TwhInvoice.action_confirm priceOf inv
      = Except.error "Jumlah pembayaran harus lebih dari 0!" := by
  rw [action_confirm_eval_cash priceOf inv hne hcash]
  unfold TwhPayment.create
  rw [if_pos]
  exact htot

/-- C10 witness input: a draft cash invoice with two lines priced zero. -/
def wInvC10 : Invoice :=
  { sampleTempo with
      payment_type := PaymentType.cash
      state := InvState.draft
      invoice_line_ids := [{ product_id := 1, quantity := 2, price_unit := 0 },
                           { product_id := 2, quantity := 1, price_unit := 0 }]
      subtotal := 0, total := 0, remaining_amount := 0 }

theorem cash_nonpositive_total_never_confirms_witness :
    TwhInvoice.action_confirm (fun _ => []) wInvC10
      = Except.error "Jumlah pembayaran harus lebih dari 0!" :=
  cash_nonpositive_total_never_confirms (fun _ => []) wInvC10
    (List.cons_ne_nil _ _) rfl le_rfl

/-- C9: action_mark_paid writes state paid on any invoice, regardless of
its current state, without touching lines, payments or balances. -/
theorem action_mark_paid_unconditional (inv : Invoice) :
    (TwhInvoice.action_mark_paid inv).state = InvState.paid
    ∧ (TwhInvoice.action_mark_paid inv).invoice_line_ids = inv.invoice_line_ids
    ∧ (TwhInvoice.action_mark_paid inv).payment_ids = inv.payment_ids
    ∧ (TwhInvoice.action_mark_paid inv).remaining_amount = inv.remaining_amount
    ∧ (TwhInvoice.action_mark_paid inv).paid_amount = inv.paid_amount
    ∧ (TwhInvoice.action_mark_paid inv).total = inv.total :=
  ⟨rfl, rfl, rfl, rfl, rfl, rfl⟩

/-- C8 counterexample input: a cancelled invoice. -/
def cexC8 : Invoice :=
  { sampleTempo with state := InvState.cancelled }

/-- C8 counterexample: action_set_to_draft resets even a cancelled invoice
to draft, refuting the claim that a cancelled invoice is never reset. -/
theorem set_to_draft_cancelled_cex :
    cexC8.state = InvState.cancelled
    ∧ (TwhInvoice.action_set_to_draft cexC8).state = InvState.draft :=
  ⟨rfl, rfl⟩

/-- C8 (amended): action_set_to_draft writes state draft on every invoice,
whatever its current state — the method has no guard, so cancelled
invoices are reset as well. -/
theorem action_set_to_draft_any_state (inv : Invoice) :
    (TwhInvoice.action_set_to_draft inv).state = InvState.draft
    ∧ (TwhInvoice.action_set_to_draft inv).payment_ids = inv.payment_ids
    ∧ (TwhInvoice.action_set_to_draft inv).commission_ids = inv.commission_ids :=
  ⟨rfl, rfl, rfl⟩

namespace TwhDueReminder

theorem reminderExists_append_left {db : List Reminder} (l : List Reminder)
    {i : Nat} {t : String} {d : ℤ} (h : reminderExists db i t d = true) :
    reminderExists (db ++ l) i t d = true := by
  unfold reminderExists at h ⊢
  rw [List.any_append, h, Bool.true_or]

theorem reminderExists_append_self (db : List Reminder) (r : Reminder) :
    reminderExists (db ++ [r]) r.invoice_id r.reminder_type r.reminder_date = true := by
  unfold reminderExists
  rw [List.any_append, Bool.or_eq_true]
  right
  simp

theorem daily_exists (db : List Reminder) (invId : Nat) (today days : ℤ) :
    reminderExists (create_daily_reminder db invId today days) invId "daily" today = true := by
  unfold create_daily_reminder
  by_cases h : reminderExists db invId "daily" today
  · rwa [if_pos h]
  · rw [if_neg h]
    exact reminderExists_append_self db
      { invoice_id := invId, reminder_date := today, reminder_type := "daily",
        days_before_due := days }

theorem milestone_exists (db : List Reminder) (invId : Nat) (today days : ℤ)
    (rt : String) (hrt : milestoneType days = some rt) :
    reminderExists (create_milestone_reminder db invId today days) invId rt today = true := by
  unfold create_milestone_reminder
  simp only [hrt]
  by_cases h : reminderExists db invId rt today
  · rwa [if_pos h]
  · rw [if_neg h]
    exact reminderExists_append_self db
      { invoice_id := invId, reminder_date := today, reminder_type := rt,
        days_before_due := days }

theorem milestone_preserves (db : List Reminder) (invId : Nat) (today days : ℤ)
    {i : Nat} {t : String} {d : ℤ} (h : reminderExists db i t d = true) :
    reminderExists (create_milestone_reminder db invId today days) i t d = true := by
  unfold create_milestone_reminder
  cases milestoneType days with
  | none => exact h
  | some rt =>
    dsimp only
    by_cases h2 : reminderExists db invId rt today
    · rwa [if_pos h2]
    · rw [if_neg h2]
      exact reminderExists_append_left _ h

theorem create_daily_noop (db : List Reminder) (invId : Nat) (today days : ℤ)
    (h : reminderExists db invId "daily" today = true) :
    create_daily_reminder db invId today days = db := by
  unfold create_daily_reminder
  rw [if_pos h]

theorem create_milestone_noop (db : List Reminder) (invId : Nat) (today days : ℤ)
    (rt : String) (hrt : milestoneType days = some rt)
    (h : reminderExists db invId rt today = true) :
    create_milestone_reminder db invId today days = db := by
  unfold create_milestone_reminder
  simp only [hrt]
  rw [if_pos h]

theorem exists_false_countKey_zero (db : List Reminder) (i : Nat) (t : String) (d : ℤ)
    (h : reminderExists db i t d = false) : countKey db i t d = 0 := by
  unfold countKey
  rw [List.length_eq_zero, List.filter_eq_nil_iff]
  intro a ha hpa
  have htrue : reminderExists db i t d = true := by
    unfold reminderExists
    exact List.any_eq_true.mpr ⟨a, ha, hpa⟩
  rw [h] at htrue
  exact Bool.false_ne_true htrue

theorem countKey_append_singleton (db : List Reminder) (i0 : Nat) (t0 : String)
    (d0 days : ℤ) (i : Nat) (t : String) (d : ℤ) :
    countKey (db ++ [{ invoice_id := i0, reminder_date := d0, reminder_type := t0,
                       days_before_due := days }]) i t d
      = countKey db i t d + (if (i0 == i && t0 == t && d0 == d) = true then 1 else 0) := by
  unfold countKey
  rw [List.filter_append, List.length_append]
  congr 1
  by_cases hk : (i0 == i && t0 == t && d0 == d) = true
  · simp [List.filter_cons, hk]
  · simp [List.filter_cons, hk]

theorem countKey_append_singleton_le (db : List Reminder) (i0 : Nat) (t0 : String)
    (d0 days : ℤ) (h : reminderExists db i0 t0 d0 = false)
    (i : Nat) (t : String) (d : ℤ) :
    countKey (db ++ [{ invoice_id := i0, reminder_date := d0, reminder_type := t0,
                       days_before_due := days }]) i t d
      ≤ max (countKey db i t d) 1 := by
  rw [countKey_append_singleton]
  by_cases hk : (i0 == i && t0 == t && d0 == d) = true
  · rw [if_pos hk]
    simp only [Bool.and_eq_true, beq_iff_eq] at hk
    obtain ⟨⟨h1, h2⟩, h3⟩ := hk
    have h0 : countKey db i t d = 0 := by
      rw [← h1, ← h2, ← h3]
      exact exists_false_countKey_zero db i0 t0 d0 h
    rw [h0, zero_add]
    exact le_max_right _ _
  · rw [if_neg hk, add_zero]
    exact le_max_left _ _

theorem countKey_if_absent_le (db : List Reminder) (i0 : Nat) (t0 : String)
    (d0 days : ℤ) (i : Nat) (t : String) (d : ℤ) :
    countKey (if reminderExists db i0 t0 d0 = true then db
              else db ++ [{ invoice_id := i0, reminder_date := d0, reminder_type := t0,
                            days_before_due := days }]) i t d
      ≤ max (countKey db i t d) 1 := by
  by_cases h : reminderExists db i0 t0 d0 = true
  · rw [if_pos h]
    exact le_max_left _ _
  · rw [if_neg h]
    exact countKey_append_singleton_le db i0 t0 d0 days (Bool.not_eq_true _ ▸ h) i t d

theorem countKey_daily_le (db : List Reminder) (invId : Nat) (today days : ℤ)
    (i : Nat) (t : String) (d : ℤ) :
    countKey (create_daily_reminder db invId today days) i t d
      ≤ max (countKey db i t d) 1 := by
  unfold create_daily_reminder
  exact countKey_if_absent_le db invId "daily" today days i t d

theorem countKey_milestone_le (db : List Reminder) (invId : Nat) (today days : ℤ)
    (i : Nat) (t : String) (d : ℤ) :
    countKey (create_milestone_reminder db invId today days) i t d
      ≤ max (countKey db i t d) 1 := by
  unfold create_milestone_reminder
  cases milestoneType days with
  | none => exact le_max_left _ _
  | some rt =>
    dsimp only
    exact countKey_if_absent_le db invId rt today days i t d

theorem countKey_overdue_le (db : List Reminder) (inv : Invoice) (invId : Nat)
    (today days : ℤ) (i : Nat) (t : String) (d : ℤ) :
    countKey (create_overdue_reminder db inv invId today days).1 i t d
      ≤ max (countKey db i t d) 1 := by
  unfold create_overdue_reminder
  by_cases h : reminderExists db invId "overdue" today = true
  · rw [if_pos h]
    exact le_max_left _ _
  · rw [if_neg h]
    dsimp only
    exact countKey_append_singleton_le db invId "overdue" today days
      (Bool.not_eq_true _ ▸ h) i t d

theorem compute_due_date_set_state (inv : Invoice) (s : InvState) :
    TwhInvoice.compute_due_date { inv with state := s }
      = TwhInvoice.compute_due_date inv := rfl

theorem process_eval_none (db : List Reminder) (inv : Invoice) (invId : Nat) (today : ℤ)
    (hdue : TwhInvoice.compute_due_date inv = none) :
    process_invoice_reminders db inv invId today = (db, inv) := by
  unfold process_invoice_reminders
  rw [hdue]

theorem process_eval_some (db : List Reminder) (inv : Invoice) (invId : Nat)
    (today due : ℤ) (hdue : TwhInvoice.compute_due_date inv = some due) :
    process_invoice_reminders db inv invId today
      = (if due - today < 0 then
           ((create_overdue_reminder db inv invId today (due - today)).1,
            { inv with state := (create_overdue_reminder db inv invId today (due - today)).2 })
         else if due - today ≤ 14 then
           (if due - today = 7 ∨ due - today = 3 ∨ due - today = 0 then
              (create_milestone_reminder (create_daily_reminder db invId today (due - today))
                 invId today (due - today), inv)
            else (create_daily_reminder db invId today (due - today), inv))
         else (db, inv)) := by
  unfold process_invoice_reminders
  rw [hdue]

theorem overdue_noop (db : List Reminder) (inv : Invoice) (invId : Nat) (today days : ℤ)
    (hex : reminderExists db invId "overdue" today = true) :
    create_overdue_reminder db inv invId today days = (db, inv.state) := by
  unfold create_overdue_reminder
  rw [if_pos hex]

theorem overdue_eval_neg (db : List Reminder) (inv : Invoice) (invId : Nat)
    (today days : ℤ) (hex : ¬ reminderExists db invId "overdue" today = true) :
    create_overdue_reminder db inv invId today days
      = (db ++ [{ invoice_id := invId, reminder_date := today, reminder_type := "overdue",
                  days_before_due := days }],
         if inv.state ≠ InvState.overdue then InvState.overdue else inv.state) := by
  unfold create_overdue_reminder
  rw [if_neg hex]

theorem process_countKey_le (db : List Reminder) (inv : Invoice) (invId : Nat)
    (today : ℤ) (i : Nat) (t : String) (d : ℤ) :
    countKey (process_invoice_reminders db inv invId today).1 i t d
      ≤ max (countKey db i t d) 1 := by
  cases hdue : TwhInvoice.compute_due_date inv with
  | none =>
    rw [process_eval_none db inv invId today hdue]
    exact le_max_left _ _
  | some due =>
    rw [process_eval_some db inv invId today due hdue]
    by_cases h1 : due - today < 0
    · rw [if_pos h1]
      dsimp only
      exact countKey_overdue_le db inv invId today (due - today) i t d
    · rw [if_neg h1]
      by_cases h2 : due - today ≤ 14
      · rw [if_pos h2]
        by_cases h3 : due - today = 7 ∨ due - today = 3 ∨ due - today = 0
        · rw [if_pos h3]
          dsimp only
          calc countKey (create_milestone_reminder
                  (create_daily_reminder db invId today (due - today))
                  invId today (due - today)) i t d
              ≤ max (countKey (create_daily_reminder db invId today (due - today)) i t d) 1 :=
                countKey_milestone_le _ _ _ _ _ _ _
            _ ≤ max (max (countKey db i t d) 1) 1 :=
                max_le_max (countKey_daily_le _ _ _ _ _ _ _) le_rfl
            _ = max (countKey db i t d) 1 := by rw [max_assoc, max_self]
        · rw [if_neg h3]
          dsimp only
          exact countKey_daily_le _ _ _ _ _ _ _
      · rw [if_neg h2]
        exact le_max_left _ _

theorem process_idem (db : List Reminder) (inv : Invoice) (invId : Nat) (today : ℤ) :
    process_invoice_reminders (process_invoice_reminders db inv invId today).1
      (process_invoice_reminders db inv invId today).2 invId today
      = process_invoice_reminders db inv invId today := by
  cases hdue : TwhInvoice.compute_due_date inv with
  | none =>
    rw [process_eval_none db inv invId today hdue]
    exact process_eval_none db inv invId today hdue
  | some due =>
    have hP := process_eval_some db inv invId today due hdue
    by_cases h1 : due - today < 0
    · rw [if_pos h1] at hP
      by_cases hex : reminderExists db invId "overdue" today = true
      · rw [overdue_noop db inv invId today (due - today) hex] at hP
        have hP2 : process_invoice_reminders db inv invId today = (db, inv) := by
          rw [hP]
        rw [hP2]
        exact hP2
      · rw [overdue_eval_neg db inv invId today (due - today) hex] at hP
        have hdue2 : TwhInvoice.compute_due_date
            ({ inv with state := if inv.state ≠ InvState.overdue then InvState.overdue
                 else inv.state }) = some due := hdue
        have hP2 := process_eval_some
          (db ++ [{ invoice_id := invId, reminder_date := today, reminder_type := "overdue",
                    days_before_due := due - today }])
          ({ inv with state := if inv.state ≠ InvState.overdue then InvState.overdue
               else inv.state })
          invId today due hdue2
        rw [if_pos h1] at hP2
        have hex2 : reminderExists
            (db ++ [{ invoice_id := invId, reminder_date := today, reminder_type := "overdue",
                      days_before_due := due - today }]) invId "overdue" today = true :=
          reminderExists_append_self db
            { invoice_id := invId, reminder_date := today, reminder_type := "overdue",
              days_before_due := due - today }
        rw [overdue_noop _ _ invId today (due - today) hex2] at hP2
        rw [hP]
        exact hP2
    · rw [if_neg h1] at hP
      by_cases h2 : due - today ≤ 14
      · rw [if_pos h2] at hP
        by_cases h3 : due - today = 7 ∨ due - today = 3 ∨ due - today = 0
        · rw [if_pos h3] at hP
          obtain ⟨rt, hrt⟩ : ∃ rt, milestoneType (due - today) = some rt := by
            rcases h3 with h | h | h <;> rw [h]
            · exact ⟨"7_days", rfl⟩
            · exact ⟨"3_days", rfl⟩
            · exact ⟨"due_date", rfl⟩
          have hd1 := daily_exists db invId today (due - today)
          have hd2 : reminderExists (create_milestone_reminder
              (create_daily_reminder db invId today (due - today)) invId today (due - today))
              invId "daily" today = true :=
            milestone_preserves _ invId today _ hd1
          have hm2 : reminderExists (create_milestone_reminder
              (create_daily_reminder db invId today (due - today)) invId today (due - today))
              invId rt today = true :=
            milestone_exists _ invId today _ rt hrt
          rw [hP]
          have hP2 := process_eval_some
            (create_milestone_reminder (create_daily_reminder db invId today (due - today))
              invId today (due - today)) inv invId today due hdue
          rw [if_neg h1, if_pos h2, if_pos h3] at hP2
          rw [create_daily_noop _ invId today _ hd2] at hP2
          rw [create_milestone_noop _ invId today _ rt hrt hm2] at hP2
          exact hP2
        · rw [if_neg h3] at hP
          have hd1 := daily_exists db invId today (due - today)
          rw [hP]
          have hP2 := process_eval_some (create_daily_reminder db invId today (due - today))
            inv invId today due hdue
          rw [if_neg h1, if_pos h2, if_neg h3] at hP2
          rw [create_daily_noop _ invId today _ hd1] at hP2
          exact hP2
      · rw [if_neg h2] at hP
        rw [hP]
        have hP2 := process_eval_some db inv invId today due hdue
        rw [if_neg h1, if_neg h2] at hP2
        exact hP2

theorem process_three_days (db : List Reminder) (inv : Invoice) (invId : Nat) (today : ℤ)
    (htempo : inv.payment_type = PaymentType.tempo)
    (hterm : inv.payment_term_days ≠ 0)
    (hdue3 : inv.date_invoice + inv.payment_term_days = today + 3) :
    reminderExists (process_invoice_reminders db inv invId today).1 invId "daily" today = true
    ∧ reminderExists (process_invoice_reminders db inv invId today).1 invId "3_days" today
        = true := by
  have hdue : TwhInvoice.compute_due_date inv = some (today + 3) := by
    unfold TwhInvoice.compute_due_date
    rw [htempo]
    dsimp only
    rw [if_pos hterm, hdue3]
  have harith : today + 3 - today = (3:ℤ) := by ring
  have hP := process_eval_some db inv invId today (today + 3) hdue
  rw [harith] at hP
  rw [if_neg (by decide : ¬ (3:ℤ) < 0), if_pos (by decide : (3:ℤ) ≤ 14),
      if_pos (by decide : (3:ℤ) = 7 ∨ (3:ℤ) = 3 ∨ (3:ℤ) = 0)] at hP
  rw [hP]
  dsimp only
  constructor
  · exact milestone_preserves _ invId today _ (daily_exists db invId today 3)
  · exact milestone_exists _ invId today 3 "3_days" rfl

end TwhDueReminder

/-- C7: one run of the reminder creation sweep keeps at most one reminder
per (invoice, type, date); running it a second time on the same day
changes nothing; and for a confirmed tempo invoice due exactly 3 days from
today a single run leaves both a daily and a 3_days reminder for today. -/
theorem reminder_sweep_idempotent (db : List Reminder) (inv : Invoice) (invId : Nat)
    (today : ℤ) (i : Nat) (t : String) (d : ℤ) :
    (TwhDueReminder.process_invoice_reminders
        (TwhDueReminder.process_invoice_reminders db inv invId today).1
        (TwhDueReminder.process_invoice_reminders db inv invId today).2 invId today
      = TwhDueReminder.process_invoice_reminders db inv invId today)
    ∧ (TwhDueReminder.countKey
        (TwhDueReminder.process_invoice_reminders db inv invId today).1 i t d
        ≤ max (TwhDueReminder.countKey db i t d) 1)
    ∧ (inv.payment_type = PaymentType.tempo → inv.state = InvState.confirmed →
        inv.payment_term_days ≠ 0 →
        inv.date_invoice + inv.payment_term_days = today + 3 →
        TwhDueReminder.reminderExists
            (TwhDueReminder.process_invoice_reminders db inv invId today).1
            invId "daily" today = true
        ∧ TwhDueReminder.reminderExists
            (TwhDueReminder.process_invoice_reminders db inv invId today).1
            invId "3_days" today = true) :=
  ⟨TwhDueReminder.process_idem db inv invId today,
   TwhDueReminder.process_countKey_le db inv invId today i t d,
   fun htempo _hconf hterm hdue3 =>
     TwhDueReminder.process_three_days db inv invId today htempo hterm hdue3⟩

/-- C7 witness input: a confirmed tempo invoice dated day 0 with a 3-day
payment term, so that it is due exactly 3 days after day 0. -/
def wInvC7 : Invoice :=
  { sampleTempo with payment_term_days := 3, date_invoice := 0 }

theorem reminder_sweep_idempotent_witness :
    TwhDueReminder.reminderExists
        (TwhDueReminder.process_invoice_reminders [] wInvC7 7 0).1 7 "daily" 0 = true
    ∧ TwhDueReminder.reminderExists
        (TwhDueReminder.process_invoice_reminders [] wInvC7 7 0).1 7 "3_days" 0 = true :=
  (reminder_sweep_idempotent [] wInvC7 7 0 7 "daily" 0).2.2 rfl rfl
    (by decide) (by decide)

end Twh
